import Mathlib

/-!
Verification of the Boston-Housing XGBoost deployment notebooks.

The repository consists of two Jupyter notebooks that train and deploy an
XGBoost regressor on the Boston Housing dataset through a managed cloud
ML platform: one uses the high-level estimator-object API, the other the
low-level job-description dict API.  This file shallowly embeds the local
computation those notebooks perform (CSV serialization, payload
formatting, response parsing, the directory guard, resource naming, the
two-stage split, and the cell-by-cell control flow) and proves or refutes
the specification's claims about them.

Strings manipulated by the notebooks are modelled as `List Char`;
separators are single characters (',' between fields, '\n' between rows).
-/

namespace BostonNB

/-! ### Splitting and joining character strings on a separator

`joinC sep parts` models Python's `sep.join(parts)`; `splitOnC sep s`
models `s.split(sep)` (also the tokenisation performed by
`np.fromstring(s, sep=',')`).  As in Python, splitting the empty string
yields one empty field, never the empty list.
-/

def joinC (sep : Char) : List (List Char) → List Char
  | [] => []
  | [p] => p
  | p :: q :: ps => p ++ sep :: joinC sep (q :: ps)

def splitOnC (sep : Char) : List Char → List (List Char)
  | [] => [[]]
  | c :: cs =>
    if c = sep then
      [] :: splitOnC sep cs
    else
      match splitOnC sep cs with
      | [] => [[c]]
      | p :: ps => (c :: p) :: ps

theorem splitOnC_ne_nil (sep : Char) (s : List Char) : splitOnC sep s ≠ [] := by
  induction s with
  | nil => simp [splitOnC]
  | cons c cs ih =>
    simp only [splitOnC]
    split
    · simp
    · split
      · simp
      · simp

theorem splitOnC_of_not_mem (sep : Char) (p : List Char) (h : sep ∉ p) :
    splitOnC sep p = [p] := by
  induction p with
  | nil => rfl
  | cons c cs ih =>
    have hc : c ≠ sep := fun hcs => h (hcs ▸ List.mem_cons_self c cs)
    have hcs : sep ∉ cs := fun hm => h (List.mem_cons_of_mem c hm)
    simp only [splitOnC, if_neg hc, ih hcs]

theorem splitOnC_append_sep (sep : Char) (p rest : List Char) (h : sep ∉ p) :
    splitOnC sep (p ++ sep :: rest) = p :: splitOnC sep rest := by
  induction p with
  | nil => simp [splitOnC]
  | cons c cs ih =>
    have hc : c ≠ sep := fun hcs => h (hcs ▸ List.mem_cons_self c cs)
    have hcs : sep ∉ cs := fun hm => h (List.mem_cons_of_mem c hm)
    simp only [List.cons_append, splitOnC, if_neg hc, List.append_eq, ih hcs]

theorem splitOnC_joinC (sep : Char) (parts : List (List Char))
    (h0 : parts ≠ []) (h : ∀ p ∈ parts, sep ∉ p) :
    splitOnC sep (joinC sep parts) = parts := by
  induction parts with
  | nil => exact absurd rfl h0
  | cons p ps ih =>
    cases ps with
    | nil =>
      simpa [joinC] using splitOnC_of_not_mem sep p (h p (List.mem_cons_self p []))
    | cons q qs =>
      have hp : sep ∉ p := h p (List.mem_cons_self p _)
      have hrest : ∀ r ∈ q :: qs, sep ∉ r := fun r hr => h r (List.mem_cons_of_mem p hr)
      simp only [joinC, splitOnC_append_sep sep p _ hp,
        ih (by simp) hrest]

theorem not_mem_joinC (sep c : Char) (parts : List (List Char))
    (hc : c ≠ sep) (h : ∀ p ∈ parts, c ∉ p) : c ∉ joinC sep parts := by
  induction parts with
  | nil => simp [joinC]
  | cons p ps ih =>
    cases ps with
    | nil => simpa [joinC] using h p (List.mem_cons_self p [])
    | cons q qs =>
      have hp : c ∉ p := h p (List.mem_cons_self p _)
      have hrest : ∀ r ∈ q :: qs, c ∉ r := fun r hr => h r (List.mem_cons_of_mem p hr)
      simp only [joinC, List.mem_append, List.mem_cons]
      push_neg
      exact ⟨hp, fun hcs => hc hcs, ih hrest⟩

/-! ### CSV serialization of the train/validation data

Both notebooks run (with `X`/`Y` the feature/target dataframes of each
set):

  pd.concat([Y_val, X_val], axis=1).to_csv(..., 'validation.csv', header=False, index=False)
  pd.concat([Y_train, X_train], axis=1).to_csv(..., 'train.csv', header=False, index=False)

A dataframe row is a list of cell strings (`List Char`).  `concatYX`
models `pd.concat([Y, X], axis=1)` for a single-column `Y`: row `i` of
the result is `Y`'s cell followed by `X`'s row (the frames share their
index, so rows are paired positionally).  `to_csv` models
`DataFrame.to_csv` restricted to the features the notebooks exercise:
when `index` is true each row is preceded by the decimal row label, and
when `header` is present a header line is emitted first.  The notebooks
pass `header=False, index=False`.
-/

def concatYX (Y : List (List Char)) (X : List (List (List Char))) :
    List (List (List Char)) :=
  Y.zipWith (fun y xs => y :: xs) X

def to_csv (header : Option (List (List Char))) (index : Bool)
    (rows : List (List (List Char))) : List (List Char) :=
  let body := rows.enum.map
    (fun ir => joinC ',' ((if index then [Nat.toDigits 10 ir.1] else []) ++ ir.2))
  match header with
  | some hs => joinC ',' ((if index then [[]] else []) ++ hs) :: body
  | none => body

/-- The two files each notebook writes in its "Save the data locally"
step, as (file name, list of CSV lines) pairs, in write order. -/
def savedCsvFiles (Ytr : List (List Char)) (Xtr : List (List (List Char)))
    (Yv : List (List Char)) (Xv : List (List (List Char))) :
    List (String × List (List Char)) :=
  [("validation.csv", to_csv none false (concatYX Yv Xv)),
   ("train.csv", to_csv none false (concatYX Ytr Xtr))]

theorem to_csv_no_header_no_index (rows : List (List (List Char))) :
    to_csv none false rows = rows.map (joinC ',') := by
  simp only [to_csv, Bool.false_eq_true, if_false, List.nil_append]
  rw [show (fun ir : ℕ × List (List Char) => joinC ',' ir.2) =
        (joinC ',') ∘ Prod.snd from rfl, ← List.map_map]
  simp [List.enum_map_snd]

/-! ### Parsing the inference response

Both notebooks decode the endpoint's body to a UTF-8 string and run
`np.fromstring(result, sep=',')`: the blob is split at each ',' and every
token is read as a decimal number.  `decValue` is the standard value of a
decimal token (optional leading '-', integer digits, optional '.' and
fraction digits); `isDecToken` recognises the characters such tokens are
made of. -/

def digitVal (c : Char) : ℕ := c.toNat - 48

def natOfDigits (ds : List Char) : ℕ :=
  ds.foldl (fun n c => 10 * n + digitVal c) 0

def decValue (s : List Char) : ℚ :=
  let signed : ℚ × List Char :=
    match s with
    | c :: r => if c = '-' then (-1, r) else (1, s)
    | [] => (1, s)
  match splitOnC '.' signed.2 with
  | [ip] => signed.1 * (natOfDigits ip : ℚ)
  | [ip, fp] =>
      signed.1 * ((natOfDigits ip : ℚ) + (natOfDigits fp : ℚ) / (10 : ℚ) ^ fp.length)
  | _ => 0

def isDecChar (c : Char) : Bool := c.isDigit || c = '.' || c = '-'

def isDecToken (s : List Char) : Bool := !s.isEmpty && s.all isDecChar

/-- `np.fromstring(s, sep=',')` as the notebooks use it: split the blob
on ',' and read each token as a decimal number. -/
def np_fromstring (s : List Char) : List ℚ :=
  (splitOnC ',' s).map decValue

theorem comma_not_mem_of_isDecToken (s : List Char) (h : isDecToken s = true) :
    ',' ∉ s := by
  intro hm
  have hall := (Bool.and_eq_true _ _ |>.mp h).2
  have := (List.all_eq_true.mp hall) ',' hm
  simp [isDecChar, Char.isDigit] at this

/-! ### The low-level notebook's request payload

  payload = [[str(entry) for entry in row] for row in X_test.values]
  payload = '\n'.join([','.join(row) for row in payload])

`payload` takes the matrix already in string form (each entry the `str`
of a float, which never contains ',' or '\n'). -/

def payload (rows : List (List (List Char))) : List Char :=
  joinC '\n' (rows.map (joinC ','))

/-! ### The configuration each notebook passes to the platform

`NotebookConfig` collects every piece of configuration the two notebooks
set up locally before calling the platform: which API layer they drive,
the `random_state` arguments of the two `train_test_split` calls, the
`test_size` arguments, the training container (algorithm name and
version given to `get_image_uri`), the hyperparameters (the low-level
notebook writes them as strings; the high-level wrapper stringifies the
Python literals it is given, so both are embedded as strings), the
`header`/`index` flags of the CSV preparation, the instance sizing for
training and for the endpoint, and the S3 key prefix. -/

inductive ApiLayer
  | estimatorObject
  | jobDescriptionDict
deriving DecidableEq

structure NotebookConfig where
  apiLayer : ApiLayer
  randomStates : List (Option ℕ)
  testSizes : List ℚ
  algorithm : String
  algorithmVersion : String
  hyperparameters : List (String × String)
  csvHeader : Bool
  csvIndex : Bool
  trainInstanceType : String
  trainInstanceCount : ℕ
  endpointInstanceType : String
  endpointInstanceCount : ℕ
  keyFolder : String      -- `prefix` in the source
deriving DecidableEq

/-- Configuration of the high-level notebook (`sagemaker.estimator.Estimator`). -/
def hlConfig : NotebookConfig where
  apiLayer := .estimatorObject
  randomStates := [some 1123, some 1123]
  testSizes := [33 / 100, 33 / 100]
  algorithm := "xgboost"
  algorithmVersion := "0.90-1"
  hyperparameters :=
    [("max_depth", "5"), ("eta", "0.2"), ("gamma", "4"), ("min_child_weight", "6"),
     ("subsample", "0.8"), ("objective", "reg:linear"),
     ("early_stopping_rounds", "10"), ("num_round", "200")]
  csvHeader := false
  csvIndex := false
  trainInstanceType := "ml.p2.xlarge"
  trainInstanceCount := 1
  endpointInstanceType := "ml.t2.medium"
  endpointInstanceCount := 1
  keyFolder := "boston-xgboost-deploy-hl"

/-- Configuration of the low-level notebook (`training_params` dict,
`create_endpoint_config`). -/
def llConfig : NotebookConfig where
  apiLayer := .jobDescriptionDict
  randomStates := [none, none]
  testSizes := [33 / 100, 33 / 100]
  algorithm := "xgboost"
  algorithmVersion := "0.90-1"
  hyperparameters :=
    [("max_depth", "5"), ("eta", "0.2"), ("gamma", "4"), ("min_child_weight", "6"),
     ("subsample", "0.8"), ("objective", "reg:linear"),
     ("early_stopping_rounds", "10"), ("num_round", "200")]
  csvHeader := false
  csvIndex := false
  trainInstanceType := "ml.m4.xlarge"
  trainInstanceCount := 1
  endpointInstanceType := "ml.m4.xlarge"
  endpointInstanceCount := 1
  keyFolder := "boston-xgboost-deploy-ll"

/-- C1 as stated: apart from the API layer and the split seed, the two
notebooks configure everything the same — the training container and
algorithm, the hyperparameters, the CSV preparation, the compute
instance sizing for training and for the endpoint, and the storage
prefix. -/
def sameExceptApiAndSeed (a b : NotebookConfig) : Prop :=
  a.algorithm = b.algorithm ∧
  a.algorithmVersion = b.algorithmVersion ∧
  a.hyperparameters = b.hyperparameters ∧
  a.csvHeader = b.csvHeader ∧
  a.csvIndex = b.csvIndex ∧
  a.trainInstanceType = b.trainInstanceType ∧
  a.trainInstanceCount = b.trainInstanceCount ∧
  a.endpointInstanceType = b.endpointInstanceType ∧
  a.endpointInstanceCount = b.endpointInstanceCount ∧
  a.keyFolder = b.keyFolder

instance (a b : NotebookConfig) : Decidable (sameExceptApiAndSeed a b) := by
  unfold sameExceptApiAndSeed; infer_instance

/-! ### Remote resource names in the low-level notebook

  training_job_name = "boston-xgboost-" + strftime("%Y-%m-%d-%H-%M-%S", gmtime())
  model_name = training_job_name + "-model"
  endpoint_config_name = "boston-xgboost-endpoint-config-" + strftime(...)
  endpoint_name = "boston-xgboost-endpoint-" + strftime(...)

The timestamp produced by `strftime` is an abstract string `ts`. -/

def training_job_name (ts : String) : String := "boston-xgboost-" ++ ts

def model_name (ts : String) : String := training_job_name ts ++ "-model"

def endpoint_config_name (ts : String) : String :=
  "boston-xgboost-endpoint-config-" ++ ts

def endpoint_name (ts : String) : String := "boston-xgboost-endpoint-" ++ ts

/-! ### Endpoint lifecycle events

Each notebook performs exactly three operations on inference endpoints,
in this order:

* high-level: `xgb.deploy(...)` (creates an endpoint and returns a
  predictor bound to it), `xgb_predictor.predict(X_test.values)`
  (invokes that predictor's endpoint), `xgb_predictor.delete_endpoint()`
  (deletes that predictor's endpoint);
* low-level: `create_endpoint(EndpointName=endpoint_name, ...)`,
  `invoke_endpoint(EndpointName=endpoint_name, ...)`,
  `delete_endpoint(EndpointName=endpoint_name)`.

The high-level trace is parametrised by the endpoint name `e` the
platform assigns at `deploy`; the low-level one by the timestamp `ts`
baked into `endpoint_name`. -/

inductive EndpointEvent
  | create (name : String)
  | invoke (name : String)
  | delete (name : String)
deriving DecidableEq

def hlEndpointTrace (e : String) : List EndpointEvent :=
  [.create e, .invoke e, .delete e]

def llEndpointTrace (ts : String) : List EndpointEvent :=
  [.create (endpoint_name ts), .invoke (endpoint_name ts), .delete (endpoint_name ts)]

def createdNames (tr : List EndpointEvent) : List String :=
  tr.filterMap fun ev => match ev with | .create n => some n | _ => none

def invokedNames (tr : List EndpointEvent) : List String :=
  tr.filterMap fun ev => match ev with | .invoke n => some n | _ => none

def deletedNames (tr : List EndpointEvent) : List String :=
  tr.filterMap fun ev => match ev with | .delete n => some n | _ => none

def isDelete : EndpointEvent → Bool
  | .delete _ => true
  | _ => false

/-- The events issued strictly after the first deletion call of a trace. -/
def eventsAfterFirstDelete (tr : List EndpointEvent) : List EndpointEvent :=
  (tr.dropWhile (fun ev => !isDelete ev)).tail

/-! ### The notebooks as linear cell sequences

One constructor per code cell, in the order the cells appear in each
notebook.  `hlPhase`/`llPhase` assign to each cell the life-cycle step
of the specification it performs (`none` for cells that are pure local
setup — imports, session objects, directory guard, estimator/dict
configuration, reading back training metadata, local file clean-up). -/

inductive Step
  | load
  | split
  | serialize
  | upload
  | train
  | deploy
  | infer
  | plot
  | teardown
deriving DecidableEq

def canonicalSteps : List Step :=
  [.load, .split, .serialize, .upload, .train, .deploy, .infer, .plot, .teardown]

inductive HLCell
  | importModules       -- %matplotlib, os, numpy, pandas, sklearn
  | sagemakerSetup      -- sagemaker imports, Session(), get_execution_role()
  | loadBoston          -- boston = load_boston()
  | trainTestSplits     -- DataFrames + both train_test_split calls
  | makedirsGuard       -- if not os.path.exists(data_dir): os.makedirs(data_dir)
  | writeCsvFiles       -- the two to_csv calls
  | uploadToS3          -- the two session.upload_data calls
  | buildEstimator      -- get_image_uri + Estimator(...)
  | setHyperparams      -- xgb.set_hyperparameters(...)
  | fitEstimator        -- s3_input wrappers + xgb.fit(...)
  | deployEstimator     -- xgb_predictor = xgb.deploy(...)
  | predictAndParse     -- xgb_predictor.predict + np.fromstring
  | scatterPlot         -- plt.scatter(Y_test, Y_pred)
  | deleteEndpointCell  -- xgb_predictor.delete_endpoint()
  | removeLocalFiles    -- !rm $data_dir/*, !rmdir $data_dir
deriving DecidableEq

def hlCells : List HLCell :=
  [.importModules, .sagemakerSetup, .loadBoston, .trainTestSplits, .makedirsGuard,
   .writeCsvFiles, .uploadToS3, .buildEstimator, .setHyperparams, .fitEstimator,
   .deployEstimator, .predictAndParse, .scatterPlot, .deleteEndpointCell,
   .removeLocalFiles]

def hlPhase : HLCell → Option Step
  | .importModules => none
  | .sagemakerSetup => none
  | .loadBoston => some .load
  | .trainTestSplits => some .split
  | .makedirsGuard => none
  | .writeCsvFiles => some .serialize
  | .uploadToS3 => some .upload
  | .buildEstimator => none
  | .setHyperparams => none
  | .fitEstimator => some .train
  | .deployEstimator => some .deploy
  | .predictAndParse => some .infer
  | .scatterPlot => some .plot
  | .deleteEndpointCell => some .teardown
  | .removeLocalFiles => none

inductive LLCell
  | importModules        -- os, time, numpy, pandas, sklearn
  | sagemakerSetup       -- sagemaker imports, Session(), get_execution_role()
  | loadBoston           -- boston = load_boston()
  | trainTestSplits      -- DataFrames + both train_test_split calls
  | makedirsGuard        -- if not os.path.exists(data_dir): os.makedirs(data_dir)
  | writeCsvFiles        -- the two to_csv calls
  | uploadToS3           -- the two session.upload_data calls
  | buildTrainingParams  -- get_image_uri + the training_params dict
  | createTrainingJob    -- training_job_name + create_training_job(**training_params)
  | logsForJob           -- session.logs_for_job(training_job_name, wait=True)
  | describeTrainingJob  -- describe_training_job → model_artifacts
  | createModel          -- model_name + create_model(...)
  | rebindModelName      -- model_name = 'boston-xgboost-2019-11-09-14-20-03-model'
  | createEndpointConfig -- endpoint_config_name + create_endpoint_config(...)
  | createEndpoint       -- endpoint_name + create_endpoint(...)
  | waitForEndpoint      -- session.wait_for_endpoint(endpoint_name)
  | serializePayload     -- payload = '\n'.join([','.join(row) ...])
  | invokeAndParse       -- invoke_endpoint + np.fromstring
  | scatterPlot          -- plt.scatter(Y_test, Y_pred)
  | deleteEndpointCell   -- delete_endpoint(EndpointName=endpoint_name)
  | removeLocalFiles     -- !rm $data_dir/*, !rmdir $data_dir
deriving DecidableEq

def llCells : List LLCell :=
  [.importModules, .sagemakerSetup, .loadBoston, .trainTestSplits, .makedirsGuard,
   .writeCsvFiles, .uploadToS3, .buildTrainingParams, .createTrainingJob,
   .logsForJob, .describeTrainingJob, .createModel, .rebindModelName,
   .createEndpointConfig, .createEndpoint, .waitForEndpoint, .serializePayload,
   .invokeAndParse, .scatterPlot, .deleteEndpointCell, .removeLocalFiles]

def llPhase : LLCell → Option Step
  | .importModules => none
  | .sagemakerSetup => none
  | .loadBoston => some .load
  | .trainTestSplits => some .split
  | .makedirsGuard => none
  | .writeCsvFiles => some .serialize
  | .uploadToS3 => some .upload
  | .buildTrainingParams => none
  | .createTrainingJob => some .train
  | .logsForJob => some .train
  | .describeTrainingJob => none
  | .createModel => some .deploy
  | .rebindModelName => none
  | .createEndpointConfig => some .deploy
  | .createEndpoint => some .deploy
  | .waitForEndpoint => some .deploy
  | .serializePayload => some .infer
  | .invokeAndParse => some .infer
  | .scatterPlot => some .plot
  | .deleteEndpointCell => some .teardown
  | .removeLocalFiles => none

/-- Collapse adjacent duplicates: the sequence of maximal step runs. -/
def dedupAdj : List Step → List Step
  | [] => []
  | [a] => [a]
  | a :: b :: rest =>
    if a = b then dedupAdj (b :: rest) else a :: dedupAdj (b :: rest)

/-! ### The local data-directory guard

  data_dir = '../data/boston'
  if not os.path.exists(data_dir):
      os.makedirs(data_dir)

The local filesystem is modelled as the finite set of existing paths;
`os_makedirs` adds the requested directory (`os.makedirs` raises if the
path already exists, which the guard rules out). -/

def os_makedirs (fs : Finset String) (p : String) : Finset String := insert p fs

def ensure_data_dir (fs : Finset String) (p : String) : Finset String :=
  if p ∈ fs then fs else os_makedirs fs p

/-! ### The two-stage train/validation/test split

  X_train, X_test, Y_train, Y_test = train_test_split(X, Y, test_size=0.33, ...)
  X_train, X_val, Y_train, Y_val = train_test_split(X_train, Y_train, test_size=0.33, ...)

`sklearn.model_selection.train_test_split` is an external collaborator;
a dataset is represented by the finite set of its row indices, and each
of the two calls is an abstract function returning the (kept, held-out)
pair of row sets.  `notebook_split` composes the two calls exactly as
the notebooks do and returns (train, validation, test). -/

def notebook_split (split1 split2 : Finset ℕ → Finset ℕ × Finset ℕ)
    (allRows : Finset ℕ) : Finset ℕ × Finset ℕ × Finset ℕ :=
  let firstStage := split1 allRows        -- (X_train, X_test)
  let secondStage := split2 firstStage.1  -- (X_train, X_val)
  (secondStage.1, secondStage.2, firstStage.2)

/-- A call site of `train_test_split`: when `random_state` is given the
procedure is seeded with it, otherwise it draws its seed from the
ambient entropy `env` of the run.  `tts` is the external randomized
split itself, a function of the data and the effective seed. -/
def split_call (tts : List ℕ → ℕ → List ℕ × List ℕ)
    (random_state : Option ℕ) (env : ℕ) (data : List ℕ) : List ℕ × List ℕ :=
  tts data (random_state.getD env)

/-- The high-level notebook's split pipeline: both calls pass
`random_state=1123`. -/
def hlSplitRun (tts : List ℕ → ℕ → List ℕ × List ℕ) (env : ℕ)
    (data : List ℕ) : List ℕ × List ℕ × List ℕ :=
  let firstStage := split_call tts (some 1123) env data
  let secondStage := split_call tts (some 1123) env firstStage.1
  (secondStage.1, secondStage.2, firstStage.2)

/-- The low-level notebook's split pipeline: neither call passes a
`random_state`. -/
def llSplitRun (tts : List ℕ → ℕ → List ℕ × List ℕ) (env : ℕ)
    (data : List ℕ) : List ℕ × List ℕ × List ℕ :=
  let firstStage := split_call tts none env data
  let secondStage := split_call tts none env firstStage.1
  (secondStage.1, secondStage.2, firstStage.2)

/-- C7 as stated: in each notebook the split is performed with a fixed
random seed, so two runs of the same notebook on the same input produce
identical train, validation, and test sets, whatever entropy the runs
see. -/
def bothNotebooksReproducible : Prop :=
  ∀ (tts : List ℕ → ℕ → List ℕ × List ℕ) (env env' : ℕ) (data : List ℕ),
    hlSplitRun tts env data = hlSplitRun tts env' data ∧
    llSplitRun tts env data = llSplitRun tts env' data

/-! ## Claim theorems -/

/-- C2: Each notebook writes exactly two flat CSV files, validation and
train, in which every row is the target value followed in order by the
feature values, joined by commas; with `header=False` there is no header
row (the file has exactly one line per data row) and with `index=False`
no index column (each line's fields are exactly `target :: features`).
The hypotheses say the target column and the feature frame have one row
each per dataset row, as `pd.concat` aligns them. -/
theorem csv_rows_are_target_then_features
    (Ytr : List (List Char)) (Xtr : List (List (List Char)))
    (Yv : List (List Char)) (Xv : List (List (List Char)))
    (htr : Ytr.length = Xtr.length) (hv : Yv.length = Xv.length) :
    (savedCsvFiles Ytr Xtr Yv Xv).map Prod.fst = ["validation.csv", "train.csv"] ∧
    to_csv none false (concatYX Yv Xv)
      = Yv.zipWith (fun y xs => joinC ',' (y :: xs)) Xv ∧
    to_csv none false (concatYX Ytr Xtr)
      = Ytr.zipWith (fun y xs => joinC ',' (y :: xs)) Xtr ∧
    (to_csv none false (concatYX Yv Xv)).length = Yv.length ∧
    (to_csv none false (concatYX Ytr Xtr)).length = Ytr.length := by
  have hform : ∀ (Y : List (List Char)) (X : List (List (List Char))),
      to_csv none false (concatYX Y X)
        = Y.zipWith (fun y xs => joinC ',' (y :: xs)) X := by
    intro Y X
    rw [to_csv_no_header_no_index, concatYX, List.map_zipWith]
  have hlen : ∀ (Y : List (List Char)) (X : List (List (List Char))),
      Y.length = X.length →
      (to_csv none false (concatYX Y X)).length = Y.length := by
    intro Y X h
    rw [hform, List.length_zipWith, h, min_self]
  exact ⟨rfl, hform Yv Xv, hform Ytr Xtr, hlen Yv Xv hv, hlen Ytr Xtr htr⟩

theorem csv_rows_are_target_then_features_witness :
    (savedCsvFiles [['7']] [[['1'], ['2']]] [['8']] [[['3']]]).map Prod.fst
      = ["validation.csv", "train.csv"] ∧
    to_csv none false (concatYX [['8']] [[['3']]])
      = [['8']].zipWith (fun y xs => joinC ',' (y :: xs)) [[['3']]] ∧
    to_csv none false (concatYX [['7']] [[['1'], ['2']]])
      = [['7']].zipWith (fun y xs => joinC ',' (y :: xs)) [[['1'], ['2']]] ∧
    (to_csv none false (concatYX [['8']] [[['3']]])).length = [['8']].length ∧
    (to_csv none false (concatYX [['7']] [[['1'], ['2']]])).length = [['7']].length :=
  csv_rows_are_target_then_features [['7']] [[['1'], ['2']]] [['8']] [[['3']]] rfl rfl

/-- C3: for every endpoint response that is a single blob of
comma-separated decimal tokens, the parsing step both notebooks run
(`np.fromstring(result, sep=',')`) returns exactly the numbers those
tokens denote, in order. -/
theorem fromstring_recovers_numbers (tokens : List (List Char))
    (h0 : tokens ≠ []) (h : ∀ t ∈ tokens, isDecToken t = true) :
    np_fromstring (joinC ',' tokens) = tokens.map decValue := by
  unfold np_fromstring
  rw [splitOnC_joinC ',' tokens h0
    (fun p hp => comma_not_mem_of_isDecToken p (h p hp))]

theorem fromstring_recovers_numbers_witness :
    np_fromstring (joinC ',' [['2', '1', '.', '5'], ['-', '3']])
      = [['2', '1', '.', '5'], ['-', '3']].map decValue :=
  fromstring_recovers_numbers [['2', '1', '.', '5'], ['-', '3']]
    (by decide) (by decide)

/-- C8: in the low-level notebook the test matrix is serialized by
joining each row's entry strings with ',' and the rows with '\n'; for
every matrix whose entries are float `str` forms (nonempty, containing
neither ',' nor '\n') and that has at least one row of at least one
entry, splitting the payload on '\n' and then on ',' recovers every
entry string, row by row, in order; and the zero-row matrix serializes
to the empty string. -/
theorem payload_round_trips (rows : List (List (List Char)))
    (h0 : rows ≠ []) (h1 : ∀ r ∈ rows, r ≠ [])
    (h2 : ∀ r ∈ rows, ∀ s ∈ r, ',' ∉ s ∧ '\n' ∉ s) :
    (splitOnC '\n' (payload rows)).map (splitOnC ',') = rows ∧
    payload [] = [] := by
  refine ⟨?_, rfl⟩
  unfold payload
  rw [splitOnC_joinC '\n' (rows.map (joinC ','))
      (by simpa using h0)
      (fun l hl => by
        obtain ⟨r, hr, rfl⟩ := List.mem_map.mp hl
        exact not_mem_joinC ',' '\n' r (by decide)
          (fun s hs => (h2 r hr s hs).2))]
  rw [List.map_map]
  conv_rhs => rw [← List.map_id rows]
  exact List.map_congr_left (fun r hr =>
    splitOnC_joinC ',' r (h1 r hr) (fun s hs => (h2 r hr s hs).1))

theorem payload_round_trips_witness :
    (splitOnC '\n' (payload [[['1', '.', '5'], ['2']], [['3'], ['4']]])).map
        (splitOnC ',')
      = [[['1', '.', '5'], ['2']], [['3'], ['4']]] ∧
    payload [] = [] :=
  payload_round_trips [[['1', '.', '5'], ['2']], [['3'], ['4']]]
    (by decide) (by decide) (by decide)

/-- C9: in both notebooks the guard
`if not os.path.exists(data_dir): os.makedirs(data_dir)` creates the
data directory exactly when it does not already exist — afterwards the
directory always exists (so the CSV writes cannot fail for lack of a
parent), an already-existing directory leaves the filesystem untouched,
and a missing one is created by `os.makedirs`. -/
theorem data_dir_guard (fs : Finset String) (p : String) :
    p ∈ ensure_data_dir fs p ∧
    (p ∈ fs → ensure_data_dir fs p = fs) ∧
    (p ∉ fs → ensure_data_dir fs p = os_makedirs fs p) := by
  by_cases h : p ∈ fs <;>
    simp [ensure_data_dir, os_makedirs, h]

theorem data_dir_guard_witness :
    ("../data/boston" ∈ ensure_data_dir ∅ "../data/boston" ∧
      ensure_data_dir ∅ "../data/boston" = os_makedirs ∅ "../data/boston") ∧
    ensure_data_dir {"../data/boston"} "../data/boston" = {"../data/boston"} :=
  ⟨⟨(data_dir_guard ∅ "../data/boston").1,
    (data_dir_guard ∅ "../data/boston").2.2 (Finset.not_mem_empty _)⟩,
   (data_dir_guard {"../data/boston"} "../data/boston").2.1
     (Finset.mem_singleton_self _)⟩

/-- C10: in the low-level notebook every remote resource name follows
the fixed derivation: training job, endpoint configuration, and endpoint
names are the prefixes "boston-xgboost-",
"boston-xgboost-endpoint-config-", and "boston-xgboost-endpoint-"
followed by the current timestamp, and the name passed as `ModelName` to
`create_model` is exactly the training job name with "-model"
appended. -/
theorem resource_names_fixed_derivation (ts : String) :
    training_job_name ts = "boston-xgboost-" ++ ts ∧
    endpoint_config_name ts = "boston-xgboost-endpoint-config-" ++ ts ∧
    endpoint_name ts = "boston-xgboost-endpoint-" ++ ts ∧
    model_name ts = training_job_name ts ++ "-model" ∧
    model_name ts = "boston-xgboost-" ++ ts ++ "-model" :=
  ⟨rfl, rfl, rfl, rfl, rfl⟩

/-- C1 (counterexample): it is not the case that, apart from the API
layer and the split seed, everything the two notebooks configure is the
same — the training instance type ("ml.p2.xlarge" vs "ml.m4.xlarge"),
the endpoint instance type ("ml.t2.medium" vs "ml.m4.xlarge"), and the
storage prefix ("boston-xgboost-deploy-hl" vs
"boston-xgboost-deploy-ll") all differ. -/
theorem configs_not_same_except_api_and_seed :
    ¬ sameExceptApiAndSeed hlConfig llConfig := by
  intro h
  exact absurd h.2.2.2.2.2.1 (by decide)

/-- C1 (amended): the two notebooks configure the same training
container and algorithm, the same hyperparameter values, the same CSV
data preparation, the same test-size fractions, and the same instance
counts; besides the API layer and the split seed they additionally
differ in the training instance type, the endpoint instance type, and
the storage prefix. -/
theorem configs_agree_except_api_seed_instances_and_prefix :
    hlConfig.algorithm = llConfig.algorithm ∧
    hlConfig.algorithmVersion = llConfig.algorithmVersion ∧
    hlConfig.hyperparameters = llConfig.hyperparameters ∧
    hlConfig.csvHeader = llConfig.csvHeader ∧
    hlConfig.csvIndex = llConfig.csvIndex ∧
    hlConfig.testSizes = llConfig.testSizes ∧
    hlConfig.trainInstanceCount = llConfig.trainInstanceCount ∧
    hlConfig.endpointInstanceCount = llConfig.endpointInstanceCount ∧
    hlConfig.apiLayer ≠ llConfig.apiLayer ∧
    hlConfig.randomStates ≠ llConfig.randomStates ∧
    hlConfig.trainInstanceType ≠ llConfig.trainInstanceType ∧
    hlConfig.endpointInstanceType ≠ llConfig.endpointInstanceType ∧
    hlConfig.keyFolder ≠ llConfig.keyFolder := by
  refine ⟨rfl, rfl, rfl, rfl, rfl, rfl, rfl, rfl, ?_, ?_, ?_, ?_, ?_⟩ <;> decide

/-- C4: each notebook is a linear script — classifying its code cells by
life-cycle step and collapsing adjacent runs yields exactly
load, split, serialize, upload, train, deploy, infer, plot, teardown,
in that order; since that list has no duplicates, every step is a single
contiguous run (never repeated, never started before all preceding
steps). -/
theorem notebooks_are_linear_scripts :
    dedupAdj (hlCells.filterMap hlPhase) = canonicalSteps ∧
    dedupAdj (llCells.filterMap llPhase) = canonicalSteps ∧
    canonicalSteps.Nodup := by
  refine ⟨?_, ?_, ?_⟩ <;> decide

/-- C5: in each notebook the only endpoint ever deleted is the one the
script itself created and invoked with the test rows — the single
deletion targets exactly the created (and invoked) endpoint's name, and
no invocation is issued after the deletion call. -/
theorem teardown_deletes_own_endpoint (e ts : String) :
    (deletedNames (hlEndpointTrace e) = [e] ∧
      createdNames (hlEndpointTrace e) = [e] ∧
      invokedNames (hlEndpointTrace e) = [e] ∧
      invokedNames (eventsAfterFirstDelete (hlEndpointTrace e)) = []) ∧
    (deletedNames (llEndpointTrace ts) = [endpoint_name ts] ∧
      createdNames (llEndpointTrace ts) = [endpoint_name ts] ∧
      invokedNames (llEndpointTrace ts) = [endpoint_name ts] ∧
      invokedNames (eventsAfterFirstDelete (llEndpointTrace ts)) = []) :=
  ⟨⟨rfl, rfl, rfl, rfl⟩, ⟨rfl, rfl, rfl, rfl⟩⟩

/-- C6: if each `train_test_split` call splits its input rows into two
disjoint subsets whose union is the input, then the two-stage split the
notebooks compose produces pairwise disjoint train, validation, and test
sets whose union is the full set of rows. -/
theorem two_stage_split_partitions
    (split1 split2 : Finset ℕ → Finset ℕ × Finset ℕ)
    (h1 : ∀ s, Disjoint (split1 s).1 (split1 s).2 ∧ (split1 s).1 ∪ (split1 s).2 = s)
    (h2 : ∀ s, Disjoint (split2 s).1 (split2 s).2 ∧ (split2 s).1 ∪ (split2 s).2 = s)
    (allRows : Finset ℕ) :
    Disjoint (notebook_split split1 split2 allRows).1
      (notebook_split split1 split2 allRows).2.1 ∧
    Disjoint (notebook_split split1 split2 allRows).1
      (notebook_split split1 split2 allRows).2.2 ∧
    Disjoint (notebook_split split1 split2 allRows).2.1
      (notebook_split split1 split2 allRows).2.2 ∧
    (notebook_split split1 split2 allRows).1 ∪
        (notebook_split split1 split2 allRows).2.1 ∪
        (notebook_split split1 split2 allRows).2.2
      = allRows := by
  obtain ⟨d1, u1⟩ := h1 allRows
  obtain ⟨d2, u2⟩ := h2 (split1 allRows).1
  have key : notebook_split split1 split2 allRows
      = ((split2 (split1 allRows).1).1, (split2 (split1 allRows).1).2,
         (split1 allRows).2) := rfl
  rw [key]
  have htr : (split2 (split1 allRows).1).1 ⊆ (split1 allRows).1 := by
    conv_rhs => rw [← u2]
    exact Finset.subset_union_left
  have hva : (split2 (split1 allRows).1).2 ⊆ (split1 allRows).1 := by
    conv_rhs => rw [← u2]
    exact Finset.subset_union_right
  refine ⟨d2, Finset.disjoint_of_subset_left htr d1,
    Finset.disjoint_of_subset_left hva d1, ?_⟩
  rw [u2, u1]

/-- A concrete splitting procedure satisfying C6's hypothesis. -/
def evenSplit (s : Finset ℕ) : Finset ℕ × Finset ℕ :=
  (s.filter (fun n => n % 2 = 0), s.filter (fun n => ¬ n % 2 = 0))

theorem evenSplit_spec (s : Finset ℕ) :
    Disjoint (evenSplit s).1 (evenSplit s).2 ∧
      (evenSplit s).1 ∪ (evenSplit s).2 = s :=
  ⟨Finset.disjoint_filter_filter_neg s s _,
    Finset.filter_union_filter_neg_eq _ s⟩

theorem two_stage_split_partitions_witness :
    Disjoint (notebook_split evenSplit evenSplit (Finset.range 4)).1
      (notebook_split evenSplit evenSplit (Finset.range 4)).2.1 ∧
    Disjoint (notebook_split evenSplit evenSplit (Finset.range 4)).1
      (notebook_split evenSplit evenSplit (Finset.range 4)).2.2 ∧
    Disjoint (notebook_split evenSplit evenSplit (Finset.range 4)).2.1
      (notebook_split evenSplit evenSplit (Finset.range 4)).2.2 ∧
    (notebook_split evenSplit evenSplit (Finset.range 4)).1 ∪
        (notebook_split evenSplit evenSplit (Finset.range 4)).2.1 ∪
        (notebook_split evenSplit evenSplit (Finset.range 4)).2.2
      = Finset.range 4 :=
  two_stage_split_partitions evenSplit evenSplit evenSplit_spec evenSplit_spec
    (Finset.range 4)

/-- C7 (counterexample): it is false that in each notebook the split is
performed with a fixed random seed — the low-level notebook's
`train_test_split` calls pass no `random_state`, so a split procedure
that depends on its seed gives different results under different ambient
entropy (here: the split `fun d s => ([s], [s])` on empty data with
entropy 0 vs 1). -/
theorem low_level_split_not_seed_fixed : ¬ bothNotebooksReproducible := by
  intro h
  have hc := (h (fun _ s => ([s], [s])) 0 1 []).2
  simp only [llSplitRun, split_call, Option.getD] at hc
  exact absurd hc (by decide)

/-- C7 (amended): only the high-level notebook performs its splits with
a fixed random seed — it passes `random_state=1123` to both calls, so
any two of its runs on the same input data produce identical train,
validation, and test sets; the low-level notebook passes no
`random_state` to either call, so its split is not fixed. -/
theorem high_level_split_reproducible :
    (∀ (tts : List ℕ → ℕ → List ℕ × List ℕ) (env env' : ℕ) (data : List ℕ),
        hlSplitRun tts env data = hlSplitRun tts env' data) ∧
    hlConfig.randomStates = [some 1123, some 1123] ∧
    llConfig.randomStates = [none, none] :=
  ⟨fun _ _ _ _ => rfl, rfl, rfl⟩

end BostonNB
